import Mathlib

/-!
# gobuster `dns` command: option parsing, staged execution and the interrupt listener

A shallow embedding of `cli/cmd/dns.go`.

* `parseDNSOptions` reads the global options and the six flags of the `dns`
  command and builds the `OptionsDNS` value handed to the plugin constructor.
* `runDNS` sequences parsing, `gobusterdns.NewGobusterDNS` and `cli.Gobuster`.
* The goroutine that drains `signalChan` is embedded as the function
  `handleInterrupt` (one iteration of its `for range` loop) together with the
  sequence of states it runs through.

A Go `error` is carried as its message; `fmt.Errorf("... %v", err)` is string
concatenation with that message.
-/

namespace Gobuster

/-- A Go `error`, carried as the text of `err.Error()`. -/
abbrev Error := String

/-- A `time.Duration` value: a signed number of nanoseconds. -/
abbrev Duration := Int

/-- The constant `time.Second`. -/
def Second : Duration := 1000000000

/-- The struct `libgobuster.Options`. Its declaration lives outside
`cli/cmd/dns.go`; the only field this file reads is `Quiet`, and the remaining
settings are carried along as one uninterpreted value. -/
structure Options where
  Quiet : Bool
  Rest : Nat
  deriving DecidableEq, Repr

/-- The struct `gobusterdns.OptionsDNS`, with the six fields that
`parseDNSOptions` assigns. -/
structure OptionsDNS where
  Domain : String
  ShowIPs : Bool
  ShowCNAME : Bool
  WildcardForced : Bool
  Resolver : String
  Timeout : Duration
  deriving DecidableEq, Repr

/-- The value of `gobusterdns.NewOptionsDNS()`: a struct of zero values. Every
field is overwritten by `parseDNSOptions` before the struct is returned. -/
def NewOptionsDNS : OptionsDNS :=
  OptionsDNS.mk "" false false false "" 0

/-- What `parseDNSOptions` reads: the result of `parseGlobalOptions()` and the
results of the six flag lookups `cmdDNS.Flags().GetString/GetBool/GetDuration`.
Each lookup either fails with an error or gives the flag's value. -/
structure RawInput where
  globalopts : Except Error Options
  domain : Except Error String
  showips : Except Error Bool
  showcname : Except Error Bool
  wildcard : Except Error Bool
  timeout : Except Error Duration
  resolver : Except Error String

/-- The message of the error returned when a custom resolver is requested on
windows. -/
def windowsResolverError : Error :=
  "currently can not set custom dns resolver on windows. See https://golang.org/pkg/net/#hdr-Name_Resolution"

/-- The function `parseDNSOptions`. `goos` is `runtime.GOOS`. A Go return of
`(nil, nil, err)` is `Except.error err`; a return of `(globalopts, plugin, nil)`
is `Except.ok (globalopts, plugin)`. -/
def parseDNSOptions (goos : String) (raw : RawInput) : Except Error (Options × OptionsDNS) :=
  match raw.globalopts with
  | .error err => .error err
  | .ok globalopts =>
    let plugin := NewOptionsDNS
    match raw.domain with
    | .error err => .error ("invalid value for domain: " ++ err)
    | .ok v =>
      let plugin := { plugin with Domain := v }
      match raw.showips with
      | .error err => .error ("invalid value for showips: " ++ err)
      | .ok v =>
        let plugin := { plugin with ShowIPs := v }
        match raw.showcname with
        | .error err => .error ("invalid value for showcname: " ++ err)
        | .ok v =>
          let plugin := { plugin with ShowCNAME := v }
          match raw.wildcard with
          | .error err => .error ("invalid value for wildcard: " ++ err)
          | .ok v =>
            let plugin := { plugin with WildcardForced := v }
            match raw.timeout with
            | .error err => .error ("invalid value for timeout: " ++ err)
            | .ok v =>
              let plugin := { plugin with Timeout := v }
              match raw.resolver with
              | .error err => .error ("invalid value for resolver: " ++ err)
              | .ok v =>
                let plugin := { plugin with Resolver := v }
                if plugin.Resolver ≠ "" ∧ goos = "windows" then
                  .error windowsResolverError
                else
                  .ok (globalopts, plugin)

/-- The flag set after `init` when the command line is `dns -d <domain>` plus
optional `--timeout`/`--resolver`: every lookup succeeds, the boolean flags have
their registered default `false`. -/
def rawOf (g : Options) (domain : String) (timeout : Duration) (resolver : String) : RawInput :=
  RawInput.mk (.ok g) (.ok domain) (.ok false) (.ok false) (.ok false) (.ok timeout) (.ok resolver)

/-! ## The interrupt listener -/

/-- The message written by `fmt.Println` when CTRL+C is caught: the argument
followed by the newline that `Println` appends. -/
def interruptMessage : String :=
  "\n[!] Keyboard interrupt detected, terminating.\n"

/-- The cancellable context made by `context.WithCancel`: whether it has been
cancelled. This is the cancellation token. -/
structure Context where
  done : Bool
  deriving DecidableEq, Repr

/-- The value of `context.WithCancel(context.Background())`: not cancelled. -/
def Context.background : Context := Context.mk false

/-- The `cancel` function of the context: the first call cancels it, a later
call leaves it cancelled. -/
def Context.cancel (_ctx : Context) : Context := Context.mk true

/-- The state the listener goroutine acts on: the context and what has been
written to standard output. -/
structure ListenerState where
  ctx : Context
  stdout : List String
  deriving DecidableEq, Repr

/-- The two states of the cancellation bridge. -/
inductive BridgeState where
  | Armed
  | CancelRequested
  deriving DecidableEq, Repr

/-- The bridge is `Armed` while the context is not cancelled and
`CancelRequested` once it is. -/
def ListenerState.bridge (s : ListenerState) : BridgeState :=
  if s.ctx.done then BridgeState.CancelRequested else BridgeState.Armed

/-- The listener state when the goroutine starts. -/
def ListenerState.armed : ListenerState := ListenerState.mk Context.background []

/-- One iteration of `for range signalChan`: print the message unless
`globalopts.Quiet`, then call `cancel()`. -/
def handleInterrupt (quiet : Bool) (s : ListenerState) : ListenerState :=
  let s := if !quiet then { s with stdout := s.stdout ++ [interruptMessage] } else s
  { s with ctx := s.ctx.cancel }

/-- The step relation of the listener: `s'` is the state after one
notification is handled in state `s`. -/
def Step (quiet : Bool) (s s' : ListenerState) : Prop :=
  s' = handleInterrupt quiet s

/-- The state after `n` notifications have been handled, in order. -/
def deliver (quiet : Bool) : Nat → ListenerState → ListenerState
  | 0, s => s
  | n + 1, s => deliver quiet n (handleInterrupt quiet s)

/-- The states the listener runs through while `n` notifications are handled:
the starting state first, then the state after each notification. -/
def states (quiet : Bool) : Nat → ListenerState → List ListenerState
  | 0, s => [s]
  | n + 1, s => s :: states quiet n (handleInterrupt quiet s)

/-- The number of `Armed → CancelRequested` transitions along a sequence of
states. -/
def armedToCancelRequested : List ListenerState → Nat
  | s :: s' :: rest =>
    (if s.bridge = BridgeState.Armed ∧ s'.bridge = BridgeState.CancelRequested then 1 else 0)
      + armedToCancelRequested (s' :: rest)
  | _ => 0

/-- The number of times the context changes state along a sequence of
states. -/
def contextChanges : List ListenerState → Nat
  | s :: s' :: rest =>
    (if s.ctx ≠ s'.ctx then 1 else 0) + contextChanges (s' :: rest)
  | _ => 0

/-- The number of steps along a sequence of states at which a cancelled
context becomes not cancelled. -/
def reverts : List ListenerState → Nat
  | s :: s' :: rest =>
    (if s.ctx.done = true ∧ s'.ctx.done = false then 1 else 0) + reverts (s' :: rest)
  | _ => 0

/-! ## The command -/

/-- The calls `runDNS` makes to the plugin constructor and to the runner. -/
inductive Call (Plugin : Type) where
  | NewGobusterDNS (globalopts : Options) (pluginopts : OptionsDNS)
  | Gobuster (globalopts : Options) (plugin : Plugin)

/-- The two functions `runDNS` calls that live in other packages.
`NewGobusterDNS` is `gobusterdns.NewGobusterDNS`. `Gobuster` is `cli.Gobuster`;
its first argument is the context as the runner finds it by the time it
completes, that is, after the listener has handled the notifications that
arrived during the run. A return of `none` is Go's `nil` error. -/
structure Collaborators (Plugin : Type) where
  NewGobusterDNS : Options → OptionsDNS → Except Error Plugin
  Gobuster : Context → Options → Plugin → Option Error

/-- What a call of `runDNS` does: the calls it made, in order, what the
listener wrote to standard output, and the returned error (`none` is `nil`). -/
structure Outcome (Plugin : Type) where
  calls : List (Call Plugin)
  stdout : List String
  err : Option Error

/-- The function `runDNS`. `interrupts` is the number of interrupt
notifications the listener receives while `cli.Gobuster` runs. -/
def runDNS {Plugin : Type} (env : Collaborators Plugin) (goos : String) (raw : RawInput)
    (interrupts : Nat) : Outcome Plugin :=
  match parseDNSOptions goos raw with
  | .error err => Outcome.mk [] [] (some ("error on parsing arguments: " ++ err))
  | .ok (globalopts, pluginopts) =>
    let ctx := Context.background
    match env.NewGobusterDNS globalopts pluginopts with
    | .error err =>
      Outcome.mk [Call.NewGobusterDNS globalopts pluginopts] []
        (some ("Error on creating gobusterdns: " ++ err))
    | .ok plugin =>
      let listener := deliver globalopts.Quiet interrupts (ListenerState.mk ctx [])
      let calls := [Call.NewGobusterDNS globalopts pluginopts, Call.Gobuster globalopts plugin]
      match env.Gobuster listener.ctx globalopts plugin with
      | some err => Outcome.mk calls listener.stdout (some ("error on running goubster: " ++ err))
      | none => Outcome.mk calls listener.stdout none

/-- An error message names an option when the option's name occurs in it. -/
def Names (msg option : String) : Prop :=
  option.toList <:+: msg.toList

instance (msg option : String) : Decidable (Names msg option) := by
  unfold Names; exact inferInstance

/-! ## Collaborators and inputs used in the scenarios -/

/-- A plugin constructor that accepts every option set and hands the options
back as the plugin, and a runner that completes without error. -/
def acceptAll : Collaborators OptionsDNS :=
  Collaborators.mk (fun _ p => .ok p) (fun _ _ _ => none)

/-- The global options of the scenarios: not quiet. -/
def loud : Options := Options.mk false 0

/-- Modelled from the spec: `parseGlobalOptions` is declared outside
`cli/cmd/dns.go`. Section 4.1 says that every rejection is reported with the
offending field name. A rejection by the global parse is therefore an
offending field, whose name is not empty, and the text reported before and
after that name. -/
structure GlobalRejection where
  before : String
  field : String
  after : String
  named : field ≠ ""

/-- Modelled from the spec: the message by which `parseGlobalOptions` reports
a rejection; it contains the name of the offending field. -/
def GlobalRejection.report (rej : GlobalRejection) : Error :=
  rej.before ++ rej.field ++ rej.after

/-- Modelled from the spec: the result of `parseGlobalOptions()`, which is
declared outside `cli/cmd/dns.go`: the global options, or the report of a
rejection. -/
def parseGlobalOptions (outcome : Except GlobalRejection Options) : Except Error Options :=
  match outcome with
  | .error rej => .error rej.report
  | .ok globalopts => .ok globalopts

/-- What one handled notification wrote to standard output. -/
def written (quiet : Bool) (s : ListenerState) : List String :=
  (handleInterrupt quiet s).stdout.drop s.stdout.length

/-- Whether a call is a call of `cli.Gobuster`. -/
def Call.isGobuster {Plugin : Type} : Call Plugin → Bool
  | Call.Gobuster _ _ => true
  | Call.NewGobusterDNS _ _ => false

/-- The number of calls of `cli.Gobuster` among the calls made. -/
def gobusterCalls {Plugin : Type} (calls : List (Call Plugin)) : Nat :=
  (calls.filter Call.isGobuster).length

/-- A runner that honours cancellation by returning the error of the cancelled
context, and completes without error otherwise. -/
def honouring : Collaborators OptionsDNS :=
  Collaborators.mk (fun _ p => .ok p)
    (fun ctx _ _ => if ctx.done then some "context canceled" else none)

/-- A runner that fails with the same text without any interrupt. -/
def failing : Collaborators OptionsDNS :=
  Collaborators.mk (fun _ p => .ok p) (fun _ _ _ => some "context canceled")

/-- The context the runner finds after `n` notifications were handled. -/
def contextAfter (quiet : Bool) (n : Nat) : Context :=
  (deliver quiet n (ListenerState.mk Context.background [])).ctx

/-! ## Facts about `parseDNSOptions` -/

/-- When every lookup succeeds, `parseDNSOptions` returns the looked-up values
unless a resolver is set on windows. -/
theorem parseDNSOptions_all_ok (goos : String) (g : Options) (d : String) (i c w : Bool)
    (t : Duration) (r : String) :
    parseDNSOptions goos (RawInput.mk (.ok g) (.ok d) (.ok i) (.ok c) (.ok w) (.ok t) (.ok r))
      = if r ≠ "" ∧ goos = "windows" then .error windowsResolverError
        else .ok (g, OptionsDNS.mk d i c w r t) := by
  simp only [parseDNSOptions, NewOptionsDNS]

/-- Success of `parseDNSOptions` characterised: every lookup succeeded with the
returned values and the windows restriction does not apply. -/
theorem parseDNSOptions_ok_iff (goos : String) (raw : RawInput) (g : Options) (p : OptionsDNS) :
    parseDNSOptions goos raw = .ok (g, p) ↔
      raw = RawInput.mk (.ok g) (.ok p.Domain) (.ok p.ShowIPs) (.ok p.ShowCNAME)
              (.ok p.WildcardForced) (.ok p.Timeout) (.ok p.Resolver)
        ∧ ¬ (p.Resolver ≠ "" ∧ goos = "windows") := by
  obtain ⟨rg, rd, ri, rc, rw, rt, rr⟩ := raw
  obtain ⟨pd, pi, pc, pw, pr, pt⟩ := p
  rcases rg with e | g' <;> rcases rd with e | d <;> rcases ri with e | i <;>
    rcases rc with e | c <;> rcases rw with e | w <;> rcases rt with e | t <;>
    rcases rr with e | r <;>
    simp only [parseDNSOptions, NewOptionsDNS, RawInput.mk.injEq, reduceCtorEq, false_and,
      and_false, and_true, true_and]
  by_cases hr : r ≠ "" ∧ goos = "windows"
  · rw [if_pos hr]
    simp only [reduceCtorEq, Except.ok.injEq, false_iff, not_and]
    rintro ⟨-, -, -, -, -, -, rfl⟩
    exact fun h => h hr.1 hr.2
  · rw [if_neg hr]
    simp only [Except.ok.injEq, Prod.mk.injEq, OptionsDNS.mk.injEq]
    constructor
    · rintro ⟨rfl, rfl, rfl, rfl, rfl, rfl, rfl⟩
      exact ⟨⟨rfl, rfl, rfl, rfl, rfl, rfl, rfl⟩, hr⟩
    · rintro ⟨⟨rfl, rfl, rfl, rfl, rfl, rfl, rfl⟩, -⟩
      exact ⟨rfl, rfl, rfl, rfl, rfl, rfl, rfl⟩

/-- A message that starts with text naming an option names that option. -/
theorem Names.append_right {a o : String} (h : Names a o) (e : String) : Names (a ++ e) o := by
  unfold Names at *
  obtain ⟨s, t, hst⟩ := h
  refine ⟨s, t ++ e.toList, ?_⟩
  simp only [String.toList, String.data_append] at *
  rw [← hst]
  simp only [List.append_assoc]

/-- When parsing fails, `runDNS` makes no call, prints nothing and returns the
wrapped parse error. -/
theorem runDNS_of_parse_error {Plugin : Type} (env : Collaborators Plugin) (goos : String)
    (raw : RawInput) (n : Nat) (e : Error) (h : parseDNSOptions goos raw = .error e) :
    runDNS env goos raw n = Outcome.mk [] [] (some ("error on parsing arguments: " ++ e)) := by
  simp only [runDNS, h]

/-- When parsing succeeds and construction fails, `runDNS` has called only the
constructor and returns the wrapped construction error. -/
theorem runDNS_of_construction_error {Plugin : Type} (env : Collaborators Plugin) (goos : String)
    (raw : RawInput) (n : Nat) (g : Options) (p : OptionsDNS) (e : Error)
    (h : parseDNSOptions goos raw = .ok (g, p)) (hc : env.NewGobusterDNS g p = .error e) :
    runDNS env goos raw n = Outcome.mk [Call.NewGobusterDNS g p] []
      (some ("Error on creating gobusterdns: " ++ e)) := by
  simp only [runDNS, h, hc]

/-- When parsing and construction succeed, `runDNS` calls the constructor and
then the runner, and its error is the runner's error, wrapped. -/
theorem runDNS_of_constructed {Plugin : Type} (env : Collaborators Plugin) (goos : String)
    (raw : RawInput) (n : Nat) (g : Options) (p : OptionsDNS) (plugin : Plugin)
    (h : parseDNSOptions goos raw = .ok (g, p)) (hc : env.NewGobusterDNS g p = .ok plugin) :
    runDNS env goos raw n = Outcome.mk [Call.NewGobusterDNS g p, Call.Gobuster g plugin]
      (deliver g.Quiet n (ListenerState.mk Context.background [])).stdout
      ((env.Gobuster (deliver g.Quiet n (ListenerState.mk Context.background [])).ctx g plugin).map
        (fun e => "error on running goubster: " ++ e)) := by
  simp only [runDNS, h, hc]
  cases env.Gobuster (deliver g.Quiet n (ListenerState.mk Context.background [])).ctx g plugin <;> rfl

/-! ## Claims about option parsing -/

/-- C1 (counterexample): an empty domain is not rejected. On linux, with the
domain flag set to the empty string and every lookup succeeding,
`parseDNSOptions` returns options whose `Domain` is empty, and `runDNS` goes on
to call both `NewGobusterDNS` and `Gobuster` and returns no error. -/
theorem empty_domain_not_rejected :
    parseDNSOptions "linux" (rawOf loud "" Second "")
        = .ok (loud, OptionsDNS.mk "" false false false "" Second)
      ∧ (runDNS acceptAll "linux" (rawOf loud "" Second "") 0).calls
        = [Call.NewGobusterDNS loud (OptionsDNS.mk "" false false false "" Second),
           Call.Gobuster loud (OptionsDNS.mk "" false false false "" Second)]
      ∧ (runDNS acceptAll "linux" (rawOf loud "" Second "") 0).err = none := by
  refine ⟨rfl, rfl, rfl⟩

/-- C1 (amended): for every raw input whose domain is the empty string, with
the global parse and every flag lookup succeeding and no resolver set on
windows, `parseDNSOptions` succeeds and returns the raw values with
`Domain = ""`, and `runDNS` calls `NewGobusterDNS` first, with exactly those
options. -/
theorem parseDNSOptions_empty_domain {Plugin : Type} (env : Collaborators Plugin)
    (goos : String) (g : Options) (i c w : Bool) (t : Duration) (r : String) (n : Nat)
    (h : ¬ (r ≠ "" ∧ goos = "windows")) :
    parseDNSOptions goos (RawInput.mk (.ok g) (.ok "") (.ok i) (.ok c) (.ok w) (.ok t) (.ok r))
        = .ok (g, OptionsDNS.mk "" i c w r t)
      ∧ (runDNS env goos
          (RawInput.mk (.ok g) (.ok "") (.ok i) (.ok c) (.ok w) (.ok t) (.ok r)) n).calls.head?
        = some (Call.NewGobusterDNS g (OptionsDNS.mk "" i c w r t)) := by
  have hp : parseDNSOptions goos
      (RawInput.mk (.ok g) (.ok "") (.ok i) (.ok c) (.ok w) (.ok t) (.ok r))
      = .ok (g, OptionsDNS.mk "" i c w r t) := by
    rw [parseDNSOptions_all_ok, if_neg h]
  refine ⟨hp, ?_⟩
  cases hc : env.NewGobusterDNS g (OptionsDNS.mk "" i c w r t) with
  | error e => rw [runDNS_of_construction_error env goos _ n g _ e hp hc]; rfl
  | ok plugin => rw [runDNS_of_constructed env goos _ n g _ plugin hp hc]; rfl

/-- Witness of `parseDNSOptions_empty_domain`: linux, no resolver. -/
theorem parseDNSOptions_empty_domain_witness :
    ¬ (("" : String) ≠ "" ∧ "linux" = "windows")
      ∧ (parseDNSOptions "linux"
            (RawInput.mk (.ok loud) (.ok "") (.ok false) (.ok false) (.ok false) (.ok Second)
              (.ok ""))
          = .ok (loud, OptionsDNS.mk "" false false false "" Second)
        ∧ (runDNS acceptAll "linux"
            (RawInput.mk (.ok loud) (.ok "") (.ok false) (.ok false) (.ok false) (.ok Second)
              (.ok "")) 0).calls.head?
          = some (Call.NewGobusterDNS loud (OptionsDNS.mk "" false false false "" Second))) :=
  ⟨by decide, parseDNSOptions_empty_domain acceptAll "linux" loud false false false Second "" 0
    (by decide)⟩

/-- C2: on windows, for every raw input whose resolver is a non-empty string,
`parseDNSOptions` returns an error (and so no options); when the global parse
and every flag lookup succeed, the error is the windows resolver restriction;
`runDNS` then returns an error having made no call, neither to
`NewGobusterDNS` nor to `Gobuster`. -/
theorem windows_resolver_rejected {Plugin : Type} (env : Collaborators Plugin) (raw : RawInput)
    (r : String) (n : Nat) (hr : raw.resolver = .ok r) (hne : r ≠ "") :
    (∃ e, parseDNSOptions "windows" raw = .error e
        ∧ runDNS env "windows" raw n
          = Outcome.mk [] [] (some ("error on parsing arguments: " ++ e)))
      ∧ (∀ g d i c w t,
          raw = RawInput.mk (.ok g) (.ok d) (.ok i) (.ok c) (.ok w) (.ok t) (.ok r) →
          parseDNSOptions "windows" raw = .error windowsResolverError
            ∧ runDNS env "windows" raw n
              = Outcome.mk [] [] (some ("error on parsing arguments: " ++ windowsResolverError))) := by
  constructor
  · cases hp : parseDNSOptions "windows" raw with
    | error e => exact ⟨e, rfl, runDNS_of_parse_error env "windows" raw n e hp⟩
    | ok gp =>
      obtain ⟨g, p⟩ := gp
      obtain ⟨hraw, hno⟩ := (parseDNSOptions_ok_iff "windows" raw g p).mp hp
      rw [hraw] at hr
      simp only [Except.ok.injEq] at hr
      exact absurd ⟨hr ▸ hne, rfl⟩ hno
  · intro g d i c w t hraw
    have hp : parseDNSOptions "windows" raw = .error windowsResolverError := by
      rw [hraw, parseDNSOptions_all_ok, if_pos ⟨hne, rfl⟩]
    exact ⟨hp, runDNS_of_parse_error env "windows" raw n _ hp⟩

/-- Witness of `windows_resolver_rejected`: domain `example.com`, resolver
`8.8.8.8`, on windows. -/
theorem windows_resolver_rejected_witness :
    (rawOf loud "example.com" Second "8.8.8.8").resolver = .ok "8.8.8.8"
      ∧ ("8.8.8.8" : String) ≠ ""
      ∧ parseDNSOptions "windows" (rawOf loud "example.com" Second "8.8.8.8")
          = .error windowsResolverError
      ∧ runDNS acceptAll "windows" (rawOf loud "example.com" Second "8.8.8.8") 1
          = Outcome.mk [] [] (some ("error on parsing arguments: " ++ windowsResolverError)) :=
  ⟨rfl, by decide,
    (windows_resolver_rejected acceptAll (rawOf loud "example.com" Second "8.8.8.8") "8.8.8.8" 1
      rfl (by decide)).2 loud "example.com" false false false Second rfl⟩

/-- C7: when `parseDNSOptions` succeeds, the returned options carry exactly the
raw values: the global options are those of the global parse, and `Domain`,
`ShowIPs`, `ShowCNAME`, `WildcardForced`, `Timeout` and `Resolver` are the
values of the flags domain, showips, showcname, wildcard, timeout and resolver.
In particular a timeout `d` comes back as `Timeout = d`, and the input
`domain = example.com, timeout = 1s, resolver = ""` yields
`Domain = example.com, Timeout = 1s, Resolver = ""` on every platform. -/
theorem parseDNSOptions_carries_raw_values (goos : String) (raw : RawInput) (g : Options)
    (p : OptionsDNS) (h : parseDNSOptions goos raw = .ok (g, p)) :
    (raw.globalopts = .ok g ∧ raw.domain = .ok p.Domain ∧ raw.showips = .ok p.ShowIPs
        ∧ raw.showcname = .ok p.ShowCNAME ∧ raw.wildcard = .ok p.WildcardForced
        ∧ raw.timeout = .ok p.Timeout ∧ raw.resolver = .ok p.Resolver)
      ∧ (∀ d : Duration, 0 ≤ d → raw.timeout = .ok d → p.Timeout = d)
      ∧ (∀ (os : String) (g' : Options),
          parseDNSOptions os (rawOf g' "example.com" Second "")
            = .ok (g', OptionsDNS.mk "example.com" false false false "" Second)) := by
  obtain ⟨hraw, -⟩ := (parseDNSOptions_ok_iff goos raw g p).mp h
  refine ⟨?_, ?_, ?_⟩
  · rw [hraw]; exact ⟨rfl, rfl, rfl, rfl, rfl, rfl, rfl⟩
  · intro d _ hd
    rw [hraw] at hd
    simp only [Except.ok.injEq] at hd
    exact hd
  · intro os g'
    rw [rawOf, parseDNSOptions_all_ok, if_neg]
    rintro ⟨hne, -⟩
    exact hne rfl

/-- Witness of `parseDNSOptions_carries_raw_values`: scenario A on linux. -/
theorem parseDNSOptions_carries_raw_values_witness :
    parseDNSOptions "linux" (rawOf loud "example.com" Second "")
        = .ok (loud, OptionsDNS.mk "example.com" false false false "" Second)
      ∧ (rawOf loud "example.com" Second "").timeout
        = .ok (OptionsDNS.mk "example.com" false false false "" Second).Timeout :=
  ⟨rfl, (parseDNSOptions_carries_raw_values "linux" (rawOf loud "example.com" Second "") loud
    (OptionsDNS.mk "example.com" false false false "" Second) rfl).1.2.2.2.2.2.1⟩

/-- C8 (counterexample): a negative timeout is not rejected. With timeout
`-1s` and every other field valid, `parseDNSOptions` succeeds and the returned
options have `Timeout = -1s < 0`. -/
theorem negative_timeout_not_rejected :
    parseDNSOptions "linux" (rawOf loud "example.com" (-Second) "")
        = .ok (loud, OptionsDNS.mk "example.com" false false false "" (-Second))
      ∧ (OptionsDNS.mk "example.com" false false false "" (-Second)).Timeout < 0 := by
  refine ⟨rfl, by decide⟩

/-- C8 (amended): for every raw input whose timeout is a negative duration,
with every other field valid and no resolver set on windows, `parseDNSOptions`
succeeds and returns options whose `Timeout` is that negative duration. The
timeout field makes `parseDNSOptions` fail only when its lookup fails, with the
message `invalid value for timeout: ` followed by the lookup error. -/
theorem parseDNSOptions_negative_timeout (goos : String) (g : Options) (d : String)
    (i c w : Bool) (t : Duration) (r : String) (ht : t < 0)
    (h : ¬ (r ≠ "" ∧ goos = "windows")) :
    (∃ p, parseDNSOptions goos
            (RawInput.mk (.ok g) (.ok d) (.ok i) (.ok c) (.ok w) (.ok t) (.ok r)) = .ok (g, p)
          ∧ p = OptionsDNS.mk d i c w r t ∧ p.Timeout < 0)
      ∧ (∀ (e : Error) (rr : Except Error String),
          parseDNSOptions goos (RawInput.mk (.ok g) (.ok d) (.ok i) (.ok c) (.ok w) (.error e) rr)
            = .error ("invalid value for timeout: " ++ e)) := by
  refine ⟨⟨OptionsDNS.mk d i c w r t, ?_, rfl, ht⟩, ?_⟩
  · rw [parseDNSOptions_all_ok, if_neg h]
  · intro e rr
    simp only [parseDNSOptions]

/-- Witness of `parseDNSOptions_negative_timeout`: timeout `-1s` on linux. -/
theorem parseDNSOptions_negative_timeout_witness :
    (-Second < 0) ∧ ¬ (("" : String) ≠ "" ∧ "linux" = "windows")
      ∧ (∃ p, parseDNSOptions "linux"
            (RawInput.mk (.ok loud) (.ok "example.com") (.ok false) (.ok false) (.ok false)
              (.ok (-Second)) (.ok "")) = .ok (loud, p)
          ∧ p = OptionsDNS.mk "example.com" false false false "" (-Second) ∧ p.Timeout < 0) :=
  ⟨by decide, by decide,
    (parseDNSOptions_negative_timeout "linux" loud "example.com" false false false (-Second) ""
      (by decide) (by decide)).1⟩

/-- The report of a rejection names the offending field. -/
theorem GlobalRejection.names_field (rej : GlobalRejection) : Names rej.report rej.field := by
  refine ⟨rej.before.toList, rej.after.toList, ?_⟩
  simp only [GlobalRejection.report, String.toList, String.data_append]

/-- A message equal to a text naming an option names that option. -/
theorem Names.eq_iff {a msg o : String} (h : Names a o) :
    a = msg ↔ msg = a ∧ Names msg o :=
  ⟨fun hm => hm ▸ ⟨rfl, h⟩, fun hm => hm.1.symm⟩

/-- C9: every error of `parseDNSOptions` names the offending option, and every
way of failing gives such an error. `parseDNSOptions` fails exactly in these
cases, taken in the order of the code: the global parse rejects a field, and
its report, which names that field, is returned unchanged; or the lookup of
the flag domain, showips, showcname, wildcard, timeout or resolver is the first
to fail, and the message is `invalid value for <flag>: ` followed by the
lookup error, which contains the flag's name; or every lookup succeeds and a
resolver is set on windows, and the message is the windows restriction, which
contains `resolver`. -/
theorem parseDNSOptions_error_names_option (goos : String) (outcome : Except GlobalRejection Options)
    (raw : RawInput) (msg : Error) :
    parseDNSOptions goos { raw with globalopts := parseGlobalOptions outcome } = .error msg ↔
      (∃ rej, outcome = .error rej ∧ msg = rej.report ∧ rej.field ≠ "" ∧ Names msg rej.field)
      ∨ (∃ g e, outcome = .ok g ∧ raw.domain = .error e
            ∧ msg = "invalid value for domain: " ++ e ∧ Names msg "domain")
      ∨ (∃ g d e, outcome = .ok g ∧ raw.domain = .ok d ∧ raw.showips = .error e
            ∧ msg = "invalid value for showips: " ++ e ∧ Names msg "showips")
      ∨ (∃ g d i e, outcome = .ok g ∧ raw.domain = .ok d ∧ raw.showips = .ok i
            ∧ raw.showcname = .error e
            ∧ msg = "invalid value for showcname: " ++ e ∧ Names msg "showcname")
      ∨ (∃ g d i c e, outcome = .ok g ∧ raw.domain = .ok d ∧ raw.showips = .ok i
            ∧ raw.showcname = .ok c ∧ raw.wildcard = .error e
            ∧ msg = "invalid value for wildcard: " ++ e ∧ Names msg "wildcard")
      ∨ (∃ g d i c w e, outcome = .ok g ∧ raw.domain = .ok d ∧ raw.showips = .ok i
            ∧ raw.showcname = .ok c ∧ raw.wildcard = .ok w ∧ raw.timeout = .error e
            ∧ msg = "invalid value for timeout: " ++ e ∧ Names msg "timeout")
      ∨ (∃ g d i c w t e, outcome = .ok g ∧ raw.domain = .ok d ∧ raw.showips = .ok i
            ∧ raw.showcname = .ok c ∧ raw.wildcard = .ok w ∧ raw.timeout = .ok t
            ∧ raw.resolver = .error e
            ∧ msg = "invalid value for resolver: " ++ e ∧ Names msg "resolver")
      ∨ (∃ g d i c w t r, outcome = .ok g ∧ raw.domain = .ok d ∧ raw.showips = .ok i
            ∧ raw.showcname = .ok c ∧ raw.wildcard = .ok w ∧ raw.timeout = .ok t
            ∧ raw.resolver = .ok r ∧ r ≠ "" ∧ goos = "windows"
            ∧ msg = windowsResolverError ∧ Names msg "resolver") := by
  obtain ⟨rg, rd, ri, rc, rw, rt, rr⟩ := raw
  rcases outcome with rej | g
  · simp only [parseDNSOptions, parseGlobalOptions, reduceCtorEq, false_and, exists_false,
      or_false, exists_const, Except.error.injEq]
    constructor
    · rintro rfl
      exact ⟨rej, rfl, rfl, rej.named, rej.names_field⟩
    · rintro ⟨rej', rfl, rfl, -⟩
      rfl
  rcases rd with e | d
  · simp [parseDNSOptions, parseGlobalOptions]
    exact Names.eq_iff (Names.append_right (by decide) e)
  rcases ri with e | i
  · simp [parseDNSOptions, parseGlobalOptions]
    exact Names.eq_iff (Names.append_right (by decide) e)
  rcases rc with e | c
  · simp [parseDNSOptions, parseGlobalOptions]
    exact Names.eq_iff (Names.append_right (by decide) e)
  rcases rw with e | w
  · simp [parseDNSOptions, parseGlobalOptions]
    exact Names.eq_iff (Names.append_right (by decide) e)
  rcases rt with e | t
  · simp [parseDNSOptions, parseGlobalOptions]
    exact Names.eq_iff (Names.append_right (by decide) e)
  rcases rr with e | r
  · simp [parseDNSOptions, parseGlobalOptions]
    exact Names.eq_iff (Names.append_right (by decide) e)
  · simp [parseDNSOptions, parseGlobalOptions]
    by_cases hw : ¬r = "" ∧ goos = "windows"
    · rw [if_pos hw, Except.error.injEq, Names.eq_iff (by decide : Names windowsResolverError "resolver")]
      exact ⟨fun h => ⟨hw.1, hw.2, h⟩, fun h => h.2.2⟩
    · rw [if_neg hw]
      constructor
      · intro h
        exact absurd h (by simp only [reduceCtorEq, not_false_eq_true])
      · intro h
        exact absurd ⟨h.1, h.2.1⟩ hw

/-- Witness of `parseDNSOptions_error_names_option`: the lookup of the timeout
flag fails after the global parse and the earlier lookups succeeded; the error
is the timeout message, and it names `timeout`. -/
theorem parseDNSOptions_error_names_option_witness :
    parseDNSOptions "linux"
        (RawInput.mk (parseGlobalOptions (.ok loud)) (.ok "example.com") (.ok false) (.ok false)
          (.ok false) (.error "flag accessed but not defined: timeout") (.ok ""))
        = .error "invalid value for timeout: flag accessed but not defined: timeout"
      ∧ Names "invalid value for timeout: flag accessed but not defined: timeout" "timeout" := by
  have hfail := (parseDNSOptions_error_names_option "linux" (.ok loud)
    (RawInput.mk (.ok loud) (.ok "example.com") (.ok false) (.ok false) (.ok false)
      (.error "flag accessed but not defined: timeout") (.ok ""))
    "invalid value for timeout: flag accessed but not defined: timeout").mpr
    (Or.inr (Or.inr (Or.inr (Or.inr (Or.inr (Or.inl
      ⟨loud, "example.com", false, false, false, "flag accessed but not defined: timeout",
        rfl, rfl, rfl, rfl, rfl, rfl, rfl, by decide⟩))))))
  refine ⟨hfail, ?_⟩
  have key := (parseDNSOptions_error_names_option "linux" (.ok loud)
    (RawInput.mk (.ok loud) (.ok "example.com") (.ok false) (.ok false) (.ok false)
      (.error "flag accessed but not defined: timeout") (.ok ""))
    "invalid value for timeout: flag accessed but not defined: timeout").mp hfail
  simp only [reduceCtorEq, false_and, and_false, exists_false, false_or, or_false, exists_const]
    at key
  obtain ⟨g, d, i, c, w, e, -, -, -, -, -, -, -, hn⟩ := key
  exact hn

/-! ## Facts about the interrupt listener -/

/-- After a notification is handled the context is cancelled. -/
theorem handleInterrupt_ctx (quiet : Bool) (s : ListenerState) :
    (handleInterrupt quiet s).ctx = Context.mk true := by
  cases quiet <;> rfl

/-- What a handled notification leaves on standard output. -/
theorem handleInterrupt_stdout (quiet : Bool) (s : ListenerState) :
    (handleInterrupt quiet s).stdout
      = if quiet = true then s.stdout else s.stdout ++ [interruptMessage] := by
  cases quiet <;> rfl

/-- The bridge state read off the context. -/
theorem bridge_eq_cancelRequested_iff (s : ListenerState) :
    s.bridge = BridgeState.CancelRequested ↔ s.ctx.done = true := by
  unfold ListenerState.bridge
  cases s.ctx.done <;> simp

/-- The bridge is armed exactly while the context is not cancelled. -/
theorem bridge_eq_armed_iff (s : ListenerState) :
    s.bridge = BridgeState.Armed ↔ s.ctx.done = false := by
  unfold ListenerState.bridge
  cases s.ctx.done <;> simp

/-- Unfolding of the transition count over a run. -/
theorem armedToCancelRequested_cons_states (quiet : Bool) (n : Nat) (a b : ListenerState) :
    armedToCancelRequested (a :: states quiet n b)
      = (if a.bridge = BridgeState.Armed ∧ b.bridge = BridgeState.CancelRequested then 1 else 0)
        + armedToCancelRequested (states quiet n b) := by
  cases n <;> simp [states, armedToCancelRequested]

/-- Unfolding of the count of context changes over a run. -/
theorem contextChanges_cons_states (quiet : Bool) (n : Nat) (a b : ListenerState) :
    contextChanges (a :: states quiet n b)
      = (if a.ctx ≠ b.ctx then 1 else 0) + contextChanges (states quiet n b) := by
  cases n <;> simp [states, contextChanges]

/-- Unfolding of the count of reverts over a run. -/
theorem reverts_cons_states (quiet : Bool) (n : Nat) (a b : ListenerState) :
    reverts (a :: states quiet n b)
      = (if a.ctx.done = true ∧ b.ctx.done = false then 1 else 0)
        + reverts (states quiet n b) := by
  cases n <;> simp [states, reverts]

/-- From a cancelled context on, no notification makes a transition or changes
the context. -/
theorem states_of_cancelled (quiet : Bool) (n : Nat) (s : ListenerState)
    (h : s.ctx = Context.mk true) :
    armedToCancelRequested (states quiet n s) = 0 ∧ contextChanges (states quiet n s) = 0 := by
  induction n generalizing s with
  | zero => exact ⟨rfl, rfl⟩
  | succ n ih =>
    have hnext := handleInterrupt_ctx quiet s
    obtain ⟨h1, h2⟩ := ih (handleInterrupt quiet s) hnext
    have hb : s.bridge ≠ BridgeState.Armed := by
      rw [Ne, bridge_eq_armed_iff, h]; simp
    constructor
    · rw [states, armedToCancelRequested_cons_states, h1, if_neg (fun hc => hb hc.1)]
    · rw [states, contextChanges_cons_states, h2, hnext, h]; simp

/-- The context never goes back from cancelled to not cancelled, from any
starting state. -/
theorem reverts_states (quiet : Bool) (n : Nat) (s : ListenerState) :
    reverts (states quiet n s) = 0 := by
  induction n generalizing s with
  | zero => rfl
  | succ n ih =>
    rw [states, reverts_cons_states, ih, handleInterrupt_ctx]
    simp

/-- Consecutive states of a run are related by the step relation. -/
theorem chain_states (quiet : Bool) (n : Nat) (s : ListenerState) :
    List.Chain' (Step quiet) (states quiet n s) := by
  induction n generalizing s with
  | zero => simp [states]
  | succ n ih =>
    rw [states, List.chain'_cons']
    refine ⟨?_, ih _⟩
    intro y hy
    cases n <;> simp [states] at hy <;> subst hy <;> rfl

/-- A run ends in the state reached by `deliver`. -/
theorem getLast?_states (quiet : Bool) (n : Nat) (s : ListenerState) :
    (states quiet n s).getLast? = some (deliver quiet n s) := by
  induction n generalizing s with
  | zero => rfl
  | succ n ih =>
    rw [states, deliver, ← ih]
    cases n <;> simp [states, List.getLast?_cons_cons]

/-- After at least one notification the context is cancelled. -/
theorem deliver_ctx (quiet : Bool) (n : Nat) (s : ListenerState) (hn : 1 ≤ n) :
    (deliver quiet n s).ctx = Context.mk true := by
  induction n generalizing s with
  | zero => omega
  | succ n ih =>
    rw [deliver]
    rcases Nat.eq_zero_or_pos n with h0 | hpos
    · subst h0; exact handleInterrupt_ctx quiet s
    · exact ih _ hpos

/-! ## Claims about the interrupt listener -/

/-- C3: for every `N ≥ 1`, handling `N` interrupt notifications from an armed
bridge makes exactly one `Armed → CancelRequested` transition, leaves the
context cancelled, changes the state of the context exactly once, and never
takes the context back to not cancelled; the states are those of the step
relation, ending in the state after the `N`-th notification. This holds for
both values of quiet. -/
theorem cancellation_happens_once (quiet : Bool) (N : Nat) (s : ListenerState) (hN : 1 ≤ N)
    (hs : s.bridge = BridgeState.Armed) :
    armedToCancelRequested (states quiet N s) = 1
      ∧ (deliver quiet N s).ctx.done = true
      ∧ (deliver quiet N s).bridge = BridgeState.CancelRequested
      ∧ contextChanges (states quiet N s) = 1
      ∧ reverts (states quiet N s) = 0
      ∧ List.Chain' (Step quiet) (states quiet N s)
      ∧ (states quiet N s).getLast? = some (deliver quiet N s) := by
  have hd : (deliver quiet N s).ctx = Context.mk true := deliver_ctx quiet N s hN
  have hdone : s.ctx.done = false := (bridge_eq_armed_iff s).mp hs
  refine ⟨?_, ?_, ?_, ?_, reverts_states quiet N s, chain_states quiet N s,
    getLast?_states quiet N s⟩
  · obtain ⟨n, rfl⟩ : ∃ n, N = n + 1 := ⟨N - 1, by omega⟩
    obtain ⟨h1, -⟩ := states_of_cancelled quiet n _ (handleInterrupt_ctx quiet s)
    have hb : (handleInterrupt quiet s).bridge = BridgeState.CancelRequested := by
      rw [bridge_eq_cancelRequested_iff, handleInterrupt_ctx]
    rw [states, armedToCancelRequested_cons_states, h1, if_pos ⟨hs, hb⟩]
  · rw [hd]
  · rw [bridge_eq_cancelRequested_iff, hd]
  · obtain ⟨n, rfl⟩ : ∃ n, N = n + 1 := ⟨N - 1, by omega⟩
    obtain ⟨-, h2⟩ := states_of_cancelled quiet n _ (handleInterrupt_ctx quiet s)
    have hne : s.ctx ≠ (handleInterrupt quiet s).ctx := by
      rw [handleInterrupt_ctx]
      intro hc
      rw [hc] at hdone
      exact absurd hdone (by decide)
    rw [states, contextChanges_cons_states, h2, if_pos hne]

/-- Witness of `cancellation_happens_once`: three notifications, not quiet,
from the starting state of the listener. -/
theorem cancellation_happens_once_witness :
    1 ≤ 3 ∧ ListenerState.armed.bridge = BridgeState.Armed
      ∧ armedToCancelRequested (states false 3 ListenerState.armed) = 1
      ∧ (deliver false 3 ListenerState.armed).ctx.done = true :=
  ⟨by decide, rfl,
    (cancellation_happens_once false 3 ListenerState.armed (by decide) rfl).1,
    (cancellation_happens_once false 3 ListenerState.armed (by decide) rfl).2.1⟩

/-- C4 (counterexample): with quiet off, the second notification, handled while
the bridge is already in `CancelRequested`, prints the message again: the
output after it differs from the output before it. -/
theorem second_interrupt_prints_again :
    (deliver false 1 ListenerState.armed).bridge = BridgeState.CancelRequested
      ∧ (deliver false 1 ListenerState.armed).stdout = [interruptMessage]
      ∧ (handleInterrupt false (deliver false 1 ListenerState.armed)).stdout
          = [interruptMessage, interruptMessage]
      ∧ (handleInterrupt false (deliver false 1 ListenerState.armed)).stdout
          ≠ (deliver false 1 ListenerState.armed).stdout := by
  refine ⟨rfl, rfl, rfl, by decide⟩

/-- C4 (amended): a notification handled while the bridge is already in
`CancelRequested` leaves the cancellation state as it was, for every value of
quiet; the printed output is left as it was exactly when quiet is on, and with
quiet off the message is printed once more. -/
theorem later_interrupt_effect (quiet : Bool) (s : ListenerState)
    (hs : s.bridge = BridgeState.CancelRequested) :
    (handleInterrupt quiet s).ctx = s.ctx
      ∧ (handleInterrupt quiet s).bridge = BridgeState.CancelRequested
      ∧ ((handleInterrupt quiet s).stdout = s.stdout ↔ quiet = true)
      ∧ ((handleInterrupt quiet s) = s ↔ quiet = true)
      ∧ (quiet = false → (handleInterrupt quiet s).stdout = s.stdout ++ [interruptMessage]) := by
  have hdone : s.ctx.done = true := (bridge_eq_cancelRequested_iff s).mp hs
  have hctx : (handleInterrupt quiet s).ctx = s.ctx := by
    rw [handleInterrupt_ctx]
    obtain ⟨⟨d⟩, out⟩ := s
    simp only at hdone
    rw [hdone]
  have hout : (handleInterrupt quiet s).stdout = s.stdout ↔ quiet = true := by
    rw [handleInterrupt_stdout]
    cases quiet <;> simp
  refine ⟨hctx, ?_, hout, ?_, ?_⟩
  · rw [bridge_eq_cancelRequested_iff, hctx, hdone]
  · constructor
    · intro h
      exact hout.mp (by rw [h])
    · intro hq
      have h2 := hout.mpr hq
      obtain ⟨c, out⟩ := s
      cases hh : handleInterrupt quiet (ListenerState.mk c out) with
      | mk c' out' =>
        rw [hh] at hctx h2
        simp only at hctx h2
        rw [hctx, h2]
  · intro hq
    rw [handleInterrupt_stdout, hq]
    simp

/-- Witness of `later_interrupt_effect`: the second notification with quiet
on. -/
theorem later_interrupt_effect_witness :
    (deliver true 1 ListenerState.armed).bridge = BridgeState.CancelRequested
      ∧ (handleInterrupt true (deliver true 1 ListenerState.armed)).ctx
          = (deliver true 1 ListenerState.armed).ctx
      ∧ (handleInterrupt true (deliver true 1 ListenerState.armed)).stdout
          = (deliver true 1 ListenerState.armed).stdout :=
  ⟨rfl, (later_interrupt_effect true (deliver true 1 ListenerState.armed) rfl).1,
    (later_interrupt_effect true (deliver true 1 ListenerState.armed) rfl).2.2.1.mpr rfl⟩

/-- C10: for every notification the listener handles, in every state, the line
`[!] Keyboard interrupt detected, terminating.` is written exactly when quiet
is off; with quiet on nothing is written; in both cases `cancel()` is applied
to the context, which is cancelled afterwards. -/
theorem interrupt_message_iff_not_quiet (quiet : Bool) (s : ListenerState) :
    (written quiet s = [interruptMessage] ↔ quiet = false)
      ∧ (written quiet s = [] ↔ quiet = true)
      ∧ Names interruptMessage "[!] Keyboard interrupt detected, terminating."
      ∧ (handleInterrupt quiet s).ctx = s.ctx.cancel
      ∧ (handleInterrupt quiet s).ctx.done = true := by
  have hw : written quiet s = if quiet = true then [] else [interruptMessage] := by
    unfold written
    rw [handleInterrupt_stdout]
    cases quiet <;> simp
  refine ⟨?_, ?_, by decide, ?_, ?_⟩
  · rw [hw]; cases quiet <;> simp
  · rw [hw]; cases quiet <;> simp
  · rw [handleInterrupt_ctx]; rfl
  · rw [handleInterrupt_ctx]

/-! ## Claims about the command -/

/-- C5 (counterexample): `runDNS` has no distinguished result for a cancelled
run. With one interrupt during the run: when the runner returns the error of
the cancelled context, `runDNS` returns a failure, the same one it returns for
a runner that fails with that text without any interrupt; when the runner
returns no error, `runDNS` returns the same result as for a run without
interrupt. -/
theorem cancelled_run_not_distinguished :
    contextAfter false 1 = Context.mk true
      ∧ (runDNS honouring "linux" (rawOf loud "example.com" Second "") 1).err
          = some "error on running goubster: context canceled"
      ∧ (runDNS honouring "linux" (rawOf loud "example.com" Second "") 1).err
          = (runDNS failing "linux" (rawOf loud "example.com" Second "") 0).err
      ∧ (runDNS acceptAll "linux" (rawOf loud "example.com" Second "") 1).err = none
      ∧ (runDNS acceptAll "linux" (rawOf loud "example.com" Second "") 1).err
          = (runDNS acceptAll "linux" (rawOf loud "example.com" Second "") 0).err := by
  refine ⟨rfl, rfl, rfl, rfl, rfl⟩

/-- C5 (amended): for every run in which validation and plugin construction
succeed, whatever the number of interrupts, the result of `runDNS` is fixed by
what the runner returns: no error gives success, and an error `e`, whether or
not it comes from a cancellation, gives the failure
`error on running goubster: e`. -/
theorem runDNS_result_from_runner {Plugin : Type} (env : Collaborators Plugin) (goos : String)
    (raw : RawInput) (n : Nat) (g : Options) (p : OptionsDNS) (plugin : Plugin)
    (hp : parseDNSOptions goos raw = .ok (g, p)) (hc : env.NewGobusterDNS g p = .ok plugin) :
    ((runDNS env goos raw n).err = none ↔ env.Gobuster (contextAfter g.Quiet n) g plugin = none)
      ∧ (∀ e, env.Gobuster (contextAfter g.Quiet n) g plugin = some e →
          (runDNS env goos raw n).err = some ("error on running goubster: " ++ e))
      ∧ (1 ≤ n → contextAfter g.Quiet n = Context.mk true) := by
  rw [runDNS_of_constructed env goos raw n g p plugin hp hc]
  refine ⟨?_, ?_, ?_⟩
  · simp only [Option.map_eq_none', contextAfter]
  · intro e he
    simp only [contextAfter] at he
    simp only [he, Option.map_some']
  · intro hn
    exact deliver_ctx g.Quiet n _ hn

/-- Witness of `runDNS_result_from_runner`: one interrupt, a runner that
returns the error of the cancelled context. -/
theorem runDNS_result_from_runner_witness :
    parseDNSOptions "linux" (rawOf loud "example.com" Second "")
        = .ok (loud, OptionsDNS.mk "example.com" false false false "" Second)
      ∧ honouring.NewGobusterDNS loud (OptionsDNS.mk "example.com" false false false "" Second)
        = .ok (OptionsDNS.mk "example.com" false false false "" Second)
      ∧ (runDNS honouring "linux" (rawOf loud "example.com" Second "") 1).err
        = some ("error on running goubster: " ++ "context canceled") :=
  ⟨rfl, rfl,
    (runDNS_result_from_runner honouring "linux" (rawOf loud "example.com" Second "") 1 loud
      (OptionsDNS.mk "example.com" false false false "" Second)
      (OptionsDNS.mk "example.com" false false false "" Second) rfl rfl).2.1
      "context canceled" rfl⟩

/-- C6: `runDNS` is staged with early exit. If `parseDNSOptions` fails,
`runDNS` returns an error and calls nothing. If parsing succeeds and
`NewGobusterDNS` fails, `runDNS` returns an error having called only
`NewGobusterDNS`. `Gobuster` is called, once, after `NewGobusterDNS`, with the
parsed global options and the constructed plugin, exactly when both earlier
stages succeeded. `runDNS` returns no error exactly when all three stages
succeed. -/
theorem runDNS_staged {Plugin : Type} (env : Collaborators Plugin) (goos : String)
    (raw : RawInput) (n : Nat) :
    (∀ e, parseDNSOptions goos raw = .error e →
        runDNS env goos raw n = Outcome.mk [] [] (some ("error on parsing arguments: " ++ e)))
      ∧ (∀ g p e, parseDNSOptions goos raw = .ok (g, p) → env.NewGobusterDNS g p = .error e →
          runDNS env goos raw n = Outcome.mk [Call.NewGobusterDNS g p] []
            (some ("Error on creating gobusterdns: " ++ e)))
      ∧ (∀ g p plugin, parseDNSOptions goos raw = .ok (g, p) →
          env.NewGobusterDNS g p = .ok plugin →
          (runDNS env goos raw n).calls = [Call.NewGobusterDNS g p, Call.Gobuster g plugin])
      ∧ (gobusterCalls (runDNS env goos raw n).calls = 1 ↔
          ∃ g p plugin, parseDNSOptions goos raw = .ok (g, p)
            ∧ env.NewGobusterDNS g p = .ok plugin)
      ∧ gobusterCalls (runDNS env goos raw n).calls ≤ 1
      ∧ ((runDNS env goos raw n).err = none ↔
          ∃ g p plugin, parseDNSOptions goos raw = .ok (g, p)
            ∧ env.NewGobusterDNS g p = .ok plugin
            ∧ env.Gobuster (contextAfter g.Quiet n) g plugin = none) := by
  refine ⟨fun e h => runDNS_of_parse_error env goos raw n e h,
    fun g p e h hc => runDNS_of_construction_error env goos raw n g p e h hc,
    fun g p plugin h hc => by rw [runDNS_of_constructed env goos raw n g p plugin h hc], ?_⟩
  cases hp : parseDNSOptions goos raw with
  | error e =>
    rw [runDNS_of_parse_error env goos raw n e hp]
    simp [gobusterCalls]
  | ok gp =>
    obtain ⟨g, p⟩ := gp
    cases hc : env.NewGobusterDNS g p with
    | error e =>
      rw [runDNS_of_construction_error env goos raw n g p e hp hc]
      refine ⟨?_, ?_, ?_⟩
      · simp only [gobusterCalls, List.filter, Call.isGobuster, List.length_nil, zero_ne_one,
          false_iff, not_exists]
        rintro g' p' plugin ⟨h1, h2⟩
        simp only [Except.ok.injEq, Prod.mk.injEq] at h1
        obtain ⟨rfl, rfl⟩ := h1
        rw [hc] at h2
        exact absurd h2 (by simp only [reduceCtorEq, not_false_eq_true])
      · simp [gobusterCalls, List.filter, Call.isGobuster]
      · simp only [reduceCtorEq, false_iff, not_exists]
        rintro g' p' plugin ⟨h1, h2, -⟩
        simp only [Except.ok.injEq, Prod.mk.injEq] at h1
        obtain ⟨rfl, rfl⟩ := h1
        rw [hc] at h2
        exact absurd h2 (by simp only [reduceCtorEq, not_false_eq_true])
    | ok plugin =>
      rw [runDNS_of_constructed env goos raw n g p plugin hp hc]
      refine ⟨?_, ?_, ?_⟩
      · simp only [gobusterCalls, List.filter, Call.isGobuster, List.length_cons, List.length_nil,
          zero_add, true_iff]
        exact ⟨g, p, plugin, rfl, hc⟩
      · simp [gobusterCalls, List.filter, Call.isGobuster]
      · simp only [Option.map_eq_none']
        constructor
        · intro h
          exact ⟨g, p, plugin, rfl, hc, h⟩
        · rintro ⟨g', p', plugin', h1, h2, h3⟩
          simp only [Except.ok.injEq, Prod.mk.injEq] at h1
          obtain ⟨rfl, rfl⟩ := h1
          rw [hc] at h2
          simp only [Except.ok.injEq] at h2
          subst h2
          exact h3

/-- Witness of `runDNS_staged`: scenario A, where all three stages succeed,
the runner is called once and `runDNS` returns no error. -/
theorem runDNS_staged_witness :
    gobusterCalls (runDNS acceptAll "linux" (rawOf loud "example.com" Second "") 0).calls = 1
      ∧ (runDNS acceptAll "linux" (rawOf loud "example.com" Second "") 0).err = none :=
  ⟨(runDNS_staged acceptAll "linux" (rawOf loud "example.com" Second "") 0).2.2.2.1.mpr
      ⟨loud, OptionsDNS.mk "example.com" false false false "" Second,
        OptionsDNS.mk "example.com" false false false "" Second, rfl, rfl⟩,
    (runDNS_staged acceptAll "linux" (rawOf loud "example.com" Second "") 0).2.2.2.2.2.mpr
      ⟨loud, OptionsDNS.mk "example.com" false false false "" Second,
        OptionsDNS.mk "example.com" false false false "" Second, rfl, rfl, rfl⟩⟩

end Gobuster
